import Mathlib

/-!
Verification of the alou-edge TypeScript fallback worker.

The embedded source file is the Cloudflare Worker entry (the `fetch`
handler): CORS preflight, `/api/health`, `/api/status`,
`POST /api/agent/chat` (one upstream AI call), `POST /api/session`,
a catch-all default response, and two catch blocks producing 500
responses. Side effects outside the handler (the upstream AI HTTP call,
`Date.now()`, `new Date().toISOString()`, `Math.random()`) are passed in
as parameters; the returned trace records the AI requests issued and any
writes to the SESSIONS key-value binding.
-/

/-- A JSON value, as produced by `JSON.stringify` of the object literals
in the worker source. -/
inductive JsonVal where
  | str (s : String)
  | num (n : Int)
  | nullv
  | arr (xs : List JsonVal)
  | obj (fields : List (String × JsonVal))
deriving Repr

/-- Keys of a JSON object (empty for non-objects). -/
def JsonVal.keys : JsonVal → List String
  | .obj fs => fs.map (fun p => p.1)
  | _ => []

/-- Field lookup in a JSON object, `none` for non-objects or absent keys. -/
def JsonVal.getField : JsonVal → String → Option JsonVal
  | .obj fs, k => (fs.find? (fun p => p.1 == k)).map (fun p => p.2)
  | _, _ => none

/-- The environment bindings the worker reads (`Env` in the source).
The SESSIONS / CACHE / NONCES KV bindings are declared in the source's
`Env` interface but never accessed by the handler, so they do not appear
here; session writes are recorded in the trace instead. -/
structure Env where
  AI_API_KEY : Option String
  CLAUDE_API_KEY : Option String
  AI_PROVIDER : Option String
  AI_MODEL : Option String
  ENVIRONMENT : Option String
deriving Repr, DecidableEq

/-- The parsed body of a chat request: `const { session_id, message } = body`. -/
structure ChatBody where
  session_id : Option String
  message : String
deriving Repr, DecidableEq

/-- An incoming HTTP request as the handler observes it.
`urlParse` models `new URL(request.url)`: `.error m` means the
constructor threw with message `m` (caught by the top-level catch).
`chatBody` models `await request.json()` on the chat route: `.error m`
means parsing threw with message `m` (caught by the chat route's catch). -/
structure Request where
  method : String
  urlParse : Except String Unit
  path : String
  chatBody : Except String ChatBody
deriving Repr

/-- One message in the upstream AI request body. -/
structure AIMessage where
  role : String
  content : String
deriving Repr, DecidableEq

/-- The upstream AI HTTP request the chat route issues (endpoint URL,
bearer key, model name, messages array). -/
structure AIRequest where
  endpoint : String
  apiKey : String
  model : String
  messages : List AIMessage
deriving Repr, DecidableEq

/-- Outcome of `await fetch(aiEndpoint, ...)`:
`ok` = 2xx with parsed JSON body, `httpError` = `!aiResponse.ok` with
status and body text, `networkError` = the fetch itself threw. -/
inductive AIOutcome where
  | ok (aiData : JsonVal)
  | httpError (stat : Nat) (text : String)
  | networkError (msg : String)
deriving Repr

/-- An HTTP response: status, headers in construction order, optional
JSON body (`none` for the preflight's `null` body). -/
structure Response where
  stat : Nat
  headers : List (String × String)
  body : Option JsonVal
deriving Repr

/-- What one invocation of the handler did: the response it returned,
the upstream AI requests it issued (in order), and the writes it made to
the SESSIONS KV binding (key, value). The source contains no
`env.SESSIONS` access, so `sessionWrites` is `[]` on every path. -/
structure Trace where
  response : Response
  aiCalls : List AIRequest
  sessionWrites : List (String × String)
deriving Repr

/-- `corsHeaders` from the source. -/
def corsHeaders : List (String × String) :=
  [("Access-Control-Allow-Origin", "*"),
   ("Access-Control-Allow-Methods", "GET, POST, PUT, DELETE, OPTIONS"),
   ("Access-Control-Allow-Headers", "Content-Type, Authorization")]

/-- Headers of every JSON response in the source:
`{ 'Content-Type': 'application/json', ...corsHeaders }`. -/
def jsonHeaders : List (String × String) :=
  ("Content-Type", "application/json") :: corsHeaders

/-- JavaScript `a || b` on an optional string: an absent or empty
(falsy) string falls through to the default. -/
def jsOr (a : Option String) (d : String) : String :=
  match a with
  | some v => if v = "" then d else v
  | none => d

/-- JavaScript `a || b` where both sides are optional strings
(`env.AI_API_KEY || env.CLAUDE_API_KEY`). -/
def jsOrOpt (a b : Option String) : Option String :=
  match a with
  | some v => if v = "" then (match b with
      | some w => if w = "" then none else some w
      | none => none) else some v
  | none => match b with
    | some w => if w = "" then none else some w
    | none => none

/-- The system prompt literal sent on every chat turn. -/
def systemPrompt : String :=
  "你是Alou智能助手，一个专业的Web3和区块链AI助手。你可以帮助用户查询钱包余额、构建交易、解答区块链问题。请用友好、专业的方式回答用户问题。"

/-- Endpoint selection from the provider name (the nested conditional
on `aiProvider`). -/
def aiEndpoint (provider : String) : String :=
  if provider = "deepseek" then "https://api.deepseek.com/v1/chat/completions"
  else if provider = "qwen" then "https://dashscope.aliyuncs.com/compatible-mode/v1/chat/completions"
  else "https://api.openai.com/v1/chat/completions"

/-- `aiData.choices?.[0]?.message?.content || '抱歉，我现在无法回答。'`:
optional chaining into the parsed AI response, with the apology fallback
for an absent, non-string or empty (falsy) content. -/
def extractContent (aiData : JsonVal) : String :=
  match aiData.getField "choices" with
  | some (.arr (c :: _)) =>
    match c.getField "message" with
    | some m =>
      match m.getField "content" with
      | some (.str s) => if s = "" then "抱歉，我现在无法回答。" else s
      | _ => "抱歉，我现在无法回答。"
    | _ => "抱歉，我现在无法回答。"
  | _ => "抱歉，我现在无法回答。"

/-- The chat route's catch-block response: 500 with an apology, the
thrown message, `session_id: 'error'` and a timestamp. -/
def chatErrorResponse (errMsg : String) (now : Nat) : Response :=
  { stat := 500
  , headers := jsonHeaders
  , body := some (.obj
      [("content", .str "抱歉，处理您的请求时出现了错误。请稍后重试。"),
       ("error", .str errMsg),
       ("session_id", .str "error"),
       ("timestamp", .num (Int.ofNat now))]) }

/-- The chat route's success response: the extracted content, the given
session id (or a fresh `session_`-prefixed one), timestamp, source,
provider and model. -/
def chatSuccessResponse (content : String) (sid : Option String)
    (provider mdl : String) (now : Nat) : Response :=
  { stat := 200
  , headers := jsonHeaders
  , body := some (.obj
      [("content", .str content),
       ("session_id", .str (jsOr sid ("session_" ++ toString now))),
       ("timestamp", .num (Int.ofNat now)),
       ("source", .str "ai-powered"),
       ("provider", .str provider),
       ("model", .str mdl)]) }

/-- The `POST /api/agent/chat` route body (the inner try/catch): parse
the body, check for an API key, issue exactly one upstream AI call, and
return the success or error response together with the list of AI
requests issued. -/
def handleChat (body : Except String ChatBody) (env : Env)
    (oracle : AIRequest → AIOutcome) (now : Nat) :
    Response × List AIRequest :=
  match body with
  | .error m => (chatErrorResponse m now, [])
  | .ok b =>
    match jsOrOpt env.AI_API_KEY env.CLAUDE_API_KEY with
    | none => (chatErrorResponse "AI_API_KEY not configured" now, [])
    | some key =>
      let provider := jsOr env.AI_PROVIDER "deepseek"
      let mdl := jsOr env.AI_MODEL "deepseek-chat"
      let req : AIRequest :=
        { endpoint := aiEndpoint provider
        , apiKey := key
        , model := mdl
        , messages := [⟨"system", systemPrompt⟩, ⟨"user", b.message⟩] }
      match oracle req with
      | .networkError m => (chatErrorResponse m now, [req])
      | .httpError st txt =>
        (chatErrorResponse ("AI API returned " ++ toString st ++ ": " ++ txt) now, [req])
      | .ok aiData =>
        (chatSuccessResponse (extractContent aiData) b.session_id provider mdl now, [req])

/-- The `/api/health` response body. -/
def healthBody (env : Env) (nowIso : String) : JsonVal :=
  .obj [("status", .str "ok"),
        ("message", .str "alou-edge worker is running (TypeScript fallback)"),
        ("timestamp", .str nowIso),
        ("environment", .str (jsOr env.ENVIRONMENT "development")),
        ("mode", .str "typescript-fallback")]

/-- The `/api/status` response body. -/
def statusBody : JsonVal :=
  .obj [("status", .str "running"),
        ("version", .str "1.0.0"),
        ("mode", .str "typescript-fallback"),
        ("features", .arr [.str "ai-agent", .str "blockchain-tools",
                           .str "payment-processing"])]

/-- The catch-all default response body. -/
def defaultBody : JsonVal :=
  .obj [("message", .str "Welcome to alou-edge API"),
        ("mode", .str "typescript-fallback"),
        ("endpoints", .arr [.str "/api/health", .str "/api/status",
                            .str "/api/agent/chat", .str "/api/session"])]

/-- The top-level catch response: 500, `Internal server error`, the
thrown message. -/
def internalErrorResponse (errMsg : String) : Response :=
  { stat := 500
  , headers := jsonHeaders
  , body := some (.obj
      [("status", .str "error"),
       ("message", .str "Internal server error"),
       ("error", .str errMsg)]) }

/-- The worker's `fetch` handler, as a trace: OPTIONS preflight first,
then URL parsing (whose failure reaches the top-level catch), then the
routes in source order, ending in the catch-all default response.
`now` is `Date.now()`, `nowIso` is `new Date().toISOString()`, `rand`
is `Math.random().toString(36).substr(2, 9)`. -/
def workerFetchT (req : Request) (env : Env)
    (oracle : AIRequest → AIOutcome) (now : Nat) (nowIso : String)
    (rand : String) : Trace :=
  if req.method = "OPTIONS" then
    { response :=
        { stat := 200
        , headers := corsHeaders ++ [("Access-Control-Max-Age", "86400")]
        , body := none }
    , aiCalls := [], sessionWrites := [] }
  else
    match req.urlParse with
    | .error m =>
      { response := internalErrorResponse m, aiCalls := [], sessionWrites := [] }
    | .ok _ =>
      if req.path = "/api/health" then
        { response := { stat := 200, headers := jsonHeaders
                      , body := some (healthBody env nowIso) }
        , aiCalls := [], sessionWrites := [] }
      else if req.path = "/api/status" then
        { response := { stat := 200, headers := jsonHeaders
                      , body := some statusBody }
        , aiCalls := [], sessionWrites := [] }
      else if req.path = "/api/agent/chat" ∧ req.method = "POST" then
        let r := handleChat req.chatBody env oracle now
        { response := r.1, aiCalls := r.2, sessionWrites := [] }
      else if req.path = "/api/session" ∧ req.method = "POST" then
        { response :=
            { stat := 200
            , headers := jsonHeaders
            , body := some (.obj
                [("session_id",
                  .str ("session_" ++ toString now ++ "_" ++ rand)),
                 ("created_at", .str nowIso)]) }
        , aiCalls := [], sessionWrites := [] }
      else
        { response := { stat := 200, headers := jsonHeaders
                      , body := some defaultBody }
        , aiCalls := [], sessionWrites := [] }

/-- The handler's response alone. -/
def workerFetch (req : Request) (env : Env)
    (oracle : AIRequest → AIOutcome) (now : Nat) (nowIso : String)
    (rand : String) : Response :=
  (workerFetchT req env oracle now nowIso rand).response

/-!
Wallet authentication nonce state machine.

Modelled from the spec: the Wallet Authentication Service
(`generate_nonce` / `verify_signature`, §4.6 of the spec) is implemented
in the alou-edge Rust sources, which are not present under `src/`; only
its documentation and HTTP callers are. The definitions below follow the
spec's words: `request_nonce` stores `{address, nonce, expires_at}`
keyed by address, overwriting any prior unconsumed nonce; `verify` looks
up the stored nonce for the address, fails with `NonceExpired` when it is
absent or expired (consuming nothing), otherwise deletes it immediately
(single-use, before verification completes) and then checks the
signature with the chain-specific scheme, yielding `InvalidSignature` or
a minted credential.
-/

/-- A stored nonce record: `{address, nonce, created_at, expires_at}`
(the address is the store key). -/
structure AuthNonce where
  nonce : String
  created_at : Nat
  expires_at : Nat
deriving Repr, DecidableEq

/-- The nonce store: a map from address to its stored nonce record. -/
abbrev NonceStore : Type := String → Option AuthNonce

/-- `request_nonce(address)`: store a fresh nonce for the address with a
short TTL, overwriting any prior unconsumed nonce for that address. -/
def requestNonce (st : NonceStore) (addr nonce : String) (now ttl : Nat) :
    NonceStore :=
  fun a => if a = addr then some ⟨nonce, now, now + ttl⟩ else st a

/-- Outcome of `verify`: a minted session-bound credential, or one of
the two terminal authentication errors. -/
inductive VerifyOutcome where
  | verified (addr chain : String)
  | nonceExpired
  | invalidSignature
deriving Repr, DecidableEq

/-- `verify(address, signature, message, chain)`: absent or expired
nonce fails with `NonceExpired` and consumes nothing; a found nonce is
deleted immediately, then the chain-specific check `sigValid` decides
between a minted credential and `InvalidSignature`. Returns the outcome
and the store after the call. -/
def verify (sigValid : String → String → String → String → Bool)
    (st : NonceStore) (addr signature msg chain : String) (now : Nat) :
    VerifyOutcome × NonceStore :=
  match st addr with
  | none => (.nonceExpired, st)
  | some an =>
    if an.expires_at ≤ now then (.nonceExpired, st)
    else
      let st' : NonceStore := fun a => if a = addr then none else st a
      if sigValid addr signature msg chain then (.verified addr chain, st')
      else (.invalidSignature, st')

/-- A `verify` call that finds no stored nonce for the address fails
with `NonceExpired`. -/
theorem verify_absent (sv : String → String → String → String → Bool)
    (st : NonceStore) (addr sig msg chain : String) (now : Nat)
    (h : st addr = none) :
    (verify sv st addr sig msg chain now).1 = VerifyOutcome.nonceExpired := by
  simp only [verify, h]

/-- A `verify` call that finds a live stored nonce for the address
deletes it, whatever the signature check's outcome. -/
theorem verify_consumed (sv : String → String → String → String → Bool)
    (st : NonceStore) (addr sig msg chain : String) (now : Nat)
    (an : AuthNonce) (hfound : st addr = some an)
    (hlive : ¬ an.expires_at ≤ now) :
    (verify sv st addr sig msg chain now).2 addr = none := by
  simp only [verify, hfound, if_neg hlive]
  split <;> simp

/-- C1: once a `verify` attempt has found the stored nonce for an
address (whatever that attempt's outcome — the chain-specific signature
check `sigValid` is arbitrary), any later `verify` call against the
resulting store, with any signature, message, chain and time, fails with
`NonceExpired` and never mints a credential. -/
theorem nonce_single_use
    (sigValid : String → String → String → String → Bool)
    (st : NonceStore) (addr sig1 msg1 chain1 : String) (now1 : Nat)
    (an : AuthNonce) (hfound : st addr = some an)
    (hlive : ¬ an.expires_at ≤ now1)
    (sv2 : String → String → String → String → Bool)
    (sig2 msg2 chain2 : String) (now2 : Nat) :
    (verify sv2 (verify sigValid st addr sig1 msg1 chain1 now1).2
      addr sig2 msg2 chain2 now2).1 = VerifyOutcome.nonceExpired :=
  verify_absent sv2 _ addr sig2 msg2 chain2 now2
    (verify_consumed sigValid st addr sig1 msg1 chain1 now1 an hfound hlive)

/-- `nonce_single_use` at a concrete store: address `0xabc` holds nonce
`n1` expiring at 300; a first verify at time 10 with a failing signature
check consumes it, and a second verify at time 20 with an
always-succeeding signature check still gets `NonceExpired`. -/
theorem nonce_single_use_witness :
    ((fun a : String => if a = "0xabc" then some (⟨"n1", 0, 300⟩ : AuthNonce) else none)
        "0xabc" = some (⟨"n1", 0, 300⟩ : AuthNonce))
    ∧ ¬ (300 : Nat) ≤ 10
    ∧ (verify (fun _ _ _ _ => true)
        (verify (fun _ _ _ _ => false)
          (fun a : String => if a = "0xabc" then some (⟨"n1", 0, 300⟩ : AuthNonce) else none)
          "0xabc" "badsig" "n1" "evm" 10).2
        "0xabc" "goodsig" "n1" "evm" 20).1 = VerifyOutcome.nonceExpired :=
  ⟨by decide, by decide,
   nonce_single_use (fun _ _ _ _ => false) _ "0xabc" "badsig" "n1" "evm" 10
     ⟨"n1", 0, 300⟩ (by decide) (by decide)
     (fun _ _ _ _ => true) "goodsig" "n1" "evm" 20⟩

/-- Route reduction: a POST to `/api/agent/chat` whose URL parses runs
the chat route; the trace records the chat route's AI calls and no
session-store writes. -/
theorem workerFetchT_chat (cb : Except String ChatBody) (env : Env)
    (oracle : AIRequest → AIOutcome) (now : Nat) (nowIso rand : String) :
    workerFetchT ⟨"POST", .ok (), "/api/agent/chat", cb⟩ env oracle now nowIso rand
      = { response := (handleChat cb env oracle now).1
        , aiCalls := (handleChat cb env oracle now).2
        , sessionWrites := [] } := rfl

/-- With a configured API key, the chat route issues exactly one
upstream AI request: the selected endpoint, the key, the selected model,
and the two-message prompt (system prompt, new user message), whatever
the upstream outcome. -/
theorem handleChat_calls (b : ChatBody) (env : Env) (key : String)
    (hkey : jsOrOpt env.AI_API_KEY env.CLAUDE_API_KEY = some key)
    (oracle : AIRequest → AIOutcome) (now : Nat) :
    (handleChat (.ok b) env oracle now).2
      = [{ endpoint := aiEndpoint (jsOr env.AI_PROVIDER "deepseek")
         , apiKey := key
         , model := jsOr env.AI_MODEL "deepseek-chat"
         , messages := [⟨"system", systemPrompt⟩, ⟨"user", b.message⟩] }] := by
  simp only [handleChat, hkey]
  split <;> rfl

/-- With a configured API key and a successful upstream call, the chat
route returns the success response built from the extracted content. -/
theorem handleChat_ok (b : ChatBody) (env : Env) (key : String)
    (hkey : jsOrOpt env.AI_API_KEY env.CLAUDE_API_KEY = some key)
    (aiData : JsonVal) (now : Nat) :
    (handleChat (.ok b) env (fun _ => .ok aiData) now).1
      = chatSuccessResponse (extractContent aiData) b.session_id
          (jsOr env.AI_PROVIDER "deepseek") (jsOr env.AI_MODEL "deepseek-chat")
          now := by
  simp only [handleChat, hkey]

/-- A parsed upstream AI response with one choice whose message content
is `hello`. -/
def aiDataHello : JsonVal :=
  .obj [("choices", .arr [.obj [("message", .obj [("content", .str "hello")])]])]

/-- A parsed upstream AI response whose message carries a `tool_calls`
array (the OpenAI wire shape) alongside its content. -/
def aiDataToolCalls : JsonVal :=
  .obj [("choices", .arr [.obj [("message", .obj
    [("content", .str "calling tool"),
     ("tool_calls", .arr [.obj
       [("id", .str "call_1"),
        ("type", .str "function"),
        ("function", .obj [("name", .str "query_blockchain"),
                           ("arguments", .str "\x7b\x7d")])]])])]])]

/-- C2 counterexample: at a concrete successful chat turn the response
body's keys are content, session_id, timestamp, source, provider and
model; the field `timestamp` (likewise source, provider, model) is not
among the claimed shape's fields content, session_id, tool_calls. -/
theorem chat_shape_cex :
    ((workerFetch ⟨"POST", .ok (), "/api/agent/chat", .ok ⟨some "s1", "hello"⟩⟩
        ⟨some "k1", none, none, none, none⟩ (fun _ => .ok aiDataHello)
        1700 "iso" "r1").body.getD .nullv).keys
      = ["content", "session_id", "timestamp", "source", "provider", "model"]
    ∧ "timestamp" ∉ (["content", "session_id", "tool_calls"] : List String) :=
  ⟨rfl, by decide⟩

/-- C2 (amended): every successful chat turn — parsed body, configured
key, upstream call returning `aiData` — yields a 200 response whose body
has exactly the fields content, session_id, timestamp, source, provider,
model, and never a tool_calls field (the worker performs no tool calls). -/
theorem chat_success_body_shape (sid : Option String) (msg key : String)
    (hk : key ≠ "") (ck pv md ev : Option String) (aiData : JsonVal)
    (now : Nat) (nowIso rand : String) :
    (workerFetch ⟨"POST", .ok (), "/api/agent/chat", .ok ⟨sid, msg⟩⟩
        ⟨some key, ck, pv, md, ev⟩ (fun _ => .ok aiData) now nowIso rand).stat = 200
    ∧ (workerFetch ⟨"POST", .ok (), "/api/agent/chat", .ok ⟨sid, msg⟩⟩
        ⟨some key, ck, pv, md, ev⟩ (fun _ => .ok aiData) now nowIso rand).body
      = some (.obj
          [("content", .str (extractContent aiData)),
           ("session_id", .str (jsOr sid ("session_" ++ toString now))),
           ("timestamp", .num (Int.ofNat now)),
           ("source", .str "ai-powered"),
           ("provider", .str (jsOr pv "deepseek")),
           ("model", .str (jsOr md "deepseek-chat"))])
    ∧ ((workerFetch ⟨"POST", .ok (), "/api/agent/chat", .ok ⟨sid, msg⟩⟩
        ⟨some key, ck, pv, md, ev⟩ (fun _ => .ok aiData) now nowIso rand).body.getD
          .nullv).keys
      = ["content", "session_id", "timestamp", "source", "provider", "model"]
    ∧ "tool_calls" ∉ ((workerFetch ⟨"POST", .ok (), "/api/agent/chat", .ok ⟨sid, msg⟩⟩
        ⟨some key, ck, pv, md, ev⟩ (fun _ => .ok aiData) now nowIso rand).body.getD
          .nullv).keys := by
  have hkey : jsOrOpt (some key) ck = some key := by
    simp [jsOrOpt, hk]
  have h : workerFetch ⟨"POST", .ok (), "/api/agent/chat", .ok ⟨sid, msg⟩⟩
      ⟨some key, ck, pv, md, ev⟩ (fun _ => .ok aiData) now nowIso rand
      = chatSuccessResponse (extractContent aiData) sid (jsOr pv "deepseek")
          (jsOr md "deepseek-chat") now := by
    unfold workerFetch
    rw [workerFetchT_chat]
    exact handleChat_ok ⟨sid, msg⟩ ⟨some key, ck, pv, md, ev⟩ key hkey aiData now
  rw [h]
  refine ⟨rfl, rfl, rfl, by simp [chatSuccessResponse, JsonVal.keys]⟩

/-- `chat_success_body_shape` at a concrete input with key `k1`. -/
theorem chat_success_body_shape_witness :
    ("k1" : String) ≠ ""
    ∧ (workerFetch ⟨"POST", .ok (), "/api/agent/chat", .ok ⟨some "s9", "hi"⟩⟩
        ⟨some "k1", none, none, none, none⟩ (fun _ => .ok aiDataHello)
        1700 "iso" "r1").stat = 200 :=
  ⟨by decide,
   (chat_success_body_shape (some "s9") "hi" "k1" (by decide) none none none none
      aiDataHello 1700 "iso" "r1").1⟩

/-- C3 counterexample: at a concrete chat turn the upstream prompt is
exactly the fixed system prompt plus the single new user message — two
messages, no session history, no tool schemas — and nothing was
appended to the session store before the model call. -/
theorem chat_prompt_cex :
    (workerFetchT ⟨"POST", .ok (), "/api/agent/chat", .ok ⟨some "s1", "再查一次"⟩⟩
        ⟨some "k1", none, none, none, none⟩ (fun _ => .ok aiDataHello)
        1701 "iso" "r3").aiCalls
      = [{ endpoint := "https://api.deepseek.com/v1/chat/completions"
         , apiKey := "k1"
         , model := "deepseek-chat"
         , messages := [⟨"system", systemPrompt⟩, ⟨"user", "再查一次"⟩] }]
    ∧ (workerFetchT ⟨"POST", .ok (), "/api/agent/chat", .ok ⟨some "s1", "再查一次"⟩⟩
        ⟨some "k1", none, none, none, none⟩ (fun _ => .ok aiDataHello)
        1701 "iso" "r3").sessionWrites = [] :=
  ⟨rfl, rfl⟩

/-- C3 (amended): for every chat turn that reaches the model call
(configured key), the upstream request carries exactly the fixed system
prompt and the new user message — no session history and no tool
schemas — and the session store is never read or written (the user
message is not appended anywhere). Holds for every upstream outcome. -/
theorem chat_prompt_fixed (sid : Option String) (msg key : String)
    (hk : key ≠ "") (ck pv md ev : Option String)
    (oracle : AIRequest → AIOutcome) (now : Nat) (nowIso rand : String) :
    (workerFetchT ⟨"POST", .ok (), "/api/agent/chat", .ok ⟨sid, msg⟩⟩
        ⟨some key, ck, pv, md, ev⟩ oracle now nowIso rand).aiCalls
      = [{ endpoint := aiEndpoint (jsOr pv "deepseek")
         , apiKey := key
         , model := jsOr md "deepseek-chat"
         , messages := [⟨"system", systemPrompt⟩, ⟨"user", msg⟩] }]
    ∧ (workerFetchT ⟨"POST", .ok (), "/api/agent/chat", .ok ⟨sid, msg⟩⟩
        ⟨some key, ck, pv, md, ev⟩ oracle now nowIso rand).sessionWrites = [] := by
  have hkey : jsOrOpt (some key) ck = some key := by
    simp [jsOrOpt, hk]
  rw [workerFetchT_chat]
  exact ⟨handleChat_calls ⟨sid, msg⟩ ⟨some key, ck, pv, md, ev⟩ key hkey oracle now,
         rfl⟩

/-- `chat_prompt_fixed` at a concrete input (upstream unreachable). -/
theorem chat_prompt_fixed_witness :
    ("k1" : String) ≠ ""
    ∧ (workerFetchT ⟨"POST", .ok (), "/api/agent/chat", .ok ⟨some "s1", "ping"⟩⟩
        ⟨some "k1", none, none, none, none⟩ (fun _ => .networkError "down")
        42 "iso" "r2").sessionWrites = [] :=
  ⟨by decide,
   (chat_prompt_fixed (some "s1") "ping" "k1" (by decide) none none none none
      (fun _ => .networkError "down") 42 "iso" "r2").2⟩

/-- C4 counterexample: a concrete chat turn completes (a 200 response is
returned) with zero writes to the SESSIONS store — neither the user's
message nor the assistant's reply is persisted before the response. -/
theorem chat_no_persist_cex :
    (workerFetchT ⟨"POST", .ok (), "/api/agent/chat", .ok ⟨some "s4", "save this"⟩⟩
        ⟨some "k1", none, none, none, none⟩ (fun _ => .ok aiDataHello)
        1702 "iso" "r4").response.stat = 200
    ∧ (workerFetchT ⟨"POST", .ok (), "/api/agent/chat", .ok ⟨some "s4", "save this"⟩⟩
        ⟨some "k1", none, none, none, none⟩ (fun _ => .ok aiDataHello)
        1702 "iso" "r4").sessionWrites = [] :=
  ⟨rfl, rfl⟩

/-- C4 (amended): the worker never writes to the session store on any
path; no message of any chat turn is persisted. -/
theorem no_session_writes (req : Request) (env : Env)
    (oracle : AIRequest → AIOutcome) (now : Nat) (nowIso rand : String) :
    (workerFetchT req env oracle now nowIso rand).sessionWrites = [] := by
  unfold workerFetchT
  repeat' split
  all_goals rfl

/-- C5 counterexample: a concrete chat turn whose model response
contains zero tool calls returns the model's content, but no assistant
message (nor the user message) is appended to any session — the session
store is untouched, contradicting "appends that output as the assistant
message". -/
theorem chat_done_no_append_cex :
    ((workerFetchT ⟨"POST", .ok (), "/api/agent/chat", .ok ⟨some "s5", "hi"⟩⟩
        ⟨some "k1", none, none, none, none⟩ (fun _ => .ok aiDataHello)
        1703 "iso" "r5").response.body.getD .nullv).getField "content"
      = some (.str "hello")
    ∧ (workerFetchT ⟨"POST", .ok (), "/api/agent/chat", .ok ⟨some "s5", "hi"⟩⟩
        ⟨some "k1", none, none, none, none⟩ (fun _ => .ok aiDataHello)
        1703 "iso" "r5").sessionWrites = [] :=
  ⟨rfl, rfl⟩

/-- C5 (amended): every chat turn with a successful upstream call —
whatever the model replied, with or without tool calls in it — issues
exactly one model call, returns 200 with the extracted content, and
appends nothing to any session; the handler never inspects tool calls. -/
theorem chat_single_round (sid : Option String) (msg key : String)
    (hk : key ≠ "") (ck pv md ev : Option String) (aiData : JsonVal)
    (now : Nat) (nowIso rand : String) :
    (workerFetchT ⟨"POST", .ok (), "/api/agent/chat", .ok ⟨sid, msg⟩⟩
        ⟨some key, ck, pv, md, ev⟩ (fun _ => .ok aiData) now nowIso
        rand).aiCalls.length = 1
    ∧ (workerFetchT ⟨"POST", .ok (), "/api/agent/chat", .ok ⟨sid, msg⟩⟩
        ⟨some key, ck, pv, md, ev⟩ (fun _ => .ok aiData) now nowIso
        rand).response.stat = 200
    ∧ ((workerFetchT ⟨"POST", .ok (), "/api/agent/chat", .ok ⟨sid, msg⟩⟩
        ⟨some key, ck, pv, md, ev⟩ (fun _ => .ok aiData) now nowIso
        rand).response.body.getD .nullv).getField "content"
      = some (.str (extractContent aiData))
    ∧ (workerFetchT ⟨"POST", .ok (), "/api/agent/chat", .ok ⟨sid, msg⟩⟩
        ⟨some key, ck, pv, md, ev⟩ (fun _ => .ok aiData) now nowIso
        rand).sessionWrites = [] := by
  have hkey : jsOrOpt (some key) ck = some key := by
    simp [jsOrOpt, hk]
  rw [workerFetchT_chat]
  refine ⟨?_, ?_, ?_, rfl⟩
  · rw [handleChat_calls ⟨sid, msg⟩ ⟨some key, ck, pv, md, ev⟩ key hkey]
    rfl
  · rw [handleChat_ok ⟨sid, msg⟩ ⟨some key, ck, pv, md, ev⟩ key hkey aiData now]
    rfl
  · rw [handleChat_ok ⟨sid, msg⟩ ⟨some key, ck, pv, md, ev⟩ key hkey aiData now]
    rfl

/-- `chat_single_round` at a concrete input whose model response even
carries a tool_calls array. -/
theorem chat_single_round_witness :
    ("k1" : String) ≠ ""
    ∧ (workerFetchT ⟨"POST", .ok (), "/api/agent/chat", .ok ⟨some "s5", "go"⟩⟩
        ⟨some "k1", none, none, none, none⟩ (fun _ => .ok aiDataToolCalls)
        1703 "iso" "r5").aiCalls.length = 1 :=
  ⟨by decide,
   (chat_single_round (some "s5") "go" "k1" (by decide) none none none none
      aiDataToolCalls 1703 "iso" "r5").1⟩

/-- The chat route issues at most one upstream AI request, whatever the
body, key configuration and upstream outcome. -/
theorem handleChat_calls_le_one (cb : Except String ChatBody) (env : Env)
    (oracle : AIRequest → AIOutcome) (now : Nat) :
    (handleChat cb env oracle now).2.length ≤ 1 := by
  rcases cb with m | b
  · simp [handleChat]
  rcases h : jsOrOpt env.AI_API_KEY env.CLAUDE_API_KEY with _ | key
  · simp [handleChat, h]
  · rw [handleChat_calls b env key h oracle now]
    simp

/-- C6 counterexample: when the model's reply itself requests a tool
call (the spec's forced tool-failure rounds would keep doing so), the
turn still ends after exactly one model call with a plain 200 carrying
the model's content — no further iteration, no Exhausted state, no
budget-spent fallback message. -/
theorem no_loop_cex :
    (workerFetchT ⟨"POST", .ok (), "/api/agent/chat", .ok ⟨some "s6", "fail forever"⟩⟩
        ⟨some "k1", none, none, none, none⟩ (fun _ => .ok aiDataToolCalls)
        1704 "iso" "r6").aiCalls.length = 1
    ∧ (workerFetchT ⟨"POST", .ok (), "/api/agent/chat", .ok ⟨some "s6", "fail forever"⟩⟩
        ⟨some "k1", none, none, none, none⟩ (fun _ => .ok aiDataToolCalls)
        1704 "iso" "r6").response.stat = 200
    ∧ ((workerFetchT ⟨"POST", .ok (), "/api/agent/chat", .ok ⟨some "s6", "fail forever"⟩⟩
        ⟨some "k1", none, none, none, none⟩ (fun _ => .ok aiDataToolCalls)
        1704 "iso" "r6").response.body.getD .nullv).getField "content"
      = some (.str "calling tool") :=
  ⟨rfl, rfl, rfl⟩

/-- C6 (amended): every request — any route, any upstream outcome —
issues at most one model call; the handler has no model/tool loop and
terminates after that single call. -/
theorem at_most_one_model_call (req : Request) (env : Env)
    (oracle : AIRequest → AIOutcome) (now : Nat) (nowIso rand : String) :
    (workerFetchT req env oracle now nowIso rand).aiCalls.length ≤ 1 := by
  unfold workerFetchT
  repeat' split
  all_goals simp [handleChat_calls_le_one]

/-- C7: every failure of the turn itself is turned into a 500 JSON
response carrying a human-readable message and the error text, never
propagated as an uncaught exception: (i) an unparseable chat body,
(ii) a missing API key, (iii) a non-OK upstream status, (iv) an
unreachable upstream, all answered by the chat catch block's apology
response; (v) an unexpected error before routing (URL parsing), answered
by the top-level catch's generic `Internal server error` response; and
(vi)/(vii) those two responses indeed have status 500, a human-readable
message, and the error text. -/
theorem turn_failures_500 :
    (∀ (m : String) (env : Env) (oracle : AIRequest → AIOutcome) (now : Nat)
       (nowIso rand : String),
      workerFetch ⟨"POST", .ok (), "/api/agent/chat", .error m⟩ env oracle
          now nowIso rand
        = chatErrorResponse m now)
    ∧ (∀ (sid : Option String) (msg : String) (pv md ev : Option String)
         (oracle : AIRequest → AIOutcome) (now : Nat) (nowIso rand : String),
      workerFetch ⟨"POST", .ok (), "/api/agent/chat", .ok ⟨sid, msg⟩⟩
          ⟨none, none, pv, md, ev⟩ oracle now nowIso rand
        = chatErrorResponse "AI_API_KEY not configured" now)
    ∧ (∀ (sid : Option String) (msg key : String), key ≠ "" →
       ∀ (ck pv md ev : Option String) (st : Nat) (txt : String) (now : Nat)
         (nowIso rand : String),
      workerFetch ⟨"POST", .ok (), "/api/agent/chat", .ok ⟨sid, msg⟩⟩
          ⟨some key, ck, pv, md, ev⟩ (fun _ => .httpError st txt) now nowIso rand
        = chatErrorResponse ("AI API returned " ++ toString st ++ ": " ++ txt) now)
    ∧ (∀ (sid : Option String) (msg key : String), key ≠ "" →
       ∀ (ck pv md ev : Option String) (m : String) (now : Nat)
         (nowIso rand : String),
      workerFetch ⟨"POST", .ok (), "/api/agent/chat", .ok ⟨sid, msg⟩⟩
          ⟨some key, ck, pv, md, ev⟩ (fun _ => .networkError m) now nowIso rand
        = chatErrorResponse m now)
    ∧ (∀ (meth : String), meth ≠ "OPTIONS" →
       ∀ (m p : String) (cb : Except String ChatBody) (env : Env)
         (oracle : AIRequest → AIOutcome) (now : Nat) (nowIso rand : String),
      workerFetch ⟨meth, .error m, p, cb⟩ env oracle now nowIso rand
        = internalErrorResponse m)
    ∧ (∀ (m : String) (now : Nat),
      (chatErrorResponse m now).stat = 500
      ∧ ((chatErrorResponse m now).body.getD .nullv).getField "content"
          = some (.str "抱歉，处理您的请求时出现了错误。请稍后重试。")
      ∧ ((chatErrorResponse m now).body.getD .nullv).getField "error"
          = some (.str m))
    ∧ (∀ (m : String),
      (internalErrorResponse m).stat = 500
      ∧ ((internalErrorResponse m).body.getD .nullv).getField "message"
          = some (.str "Internal server error")
      ∧ ((internalErrorResponse m).body.getD .nullv).getField "error"
          = some (.str m)) := by
  refine ⟨fun m env oracle now a b => rfl,
          fun sid msg pv md ev oracle now a b => rfl,
          ?_, ?_,
          ?_,
          fun m now => ⟨rfl, rfl, rfl⟩,
          fun m => ⟨rfl, rfl, rfl⟩⟩
  · intro sid msg key hk ck pv md ev st txt now nowIso rand
    have hkey : jsOrOpt (some key) ck = some key := by
      simp [jsOrOpt, hk]
    unfold workerFetch
    rw [workerFetchT_chat]
    simp only [handleChat, hkey]
  · intro sid msg key hk ck pv md ev m now nowIso rand
    have hkey : jsOrOpt (some key) ck = some key := by
      simp [jsOrOpt, hk]
    unfold workerFetch
    rw [workerFetchT_chat]
    simp only [handleChat, hkey]
  · intro meth hmeth m p cb env oracle now nowIso rand
    unfold workerFetch workerFetchT
    rw [if_neg hmeth]

/-- `turn_failures_500` at concrete inputs: a 503 from the upstream API
and an invalid request URL. -/
theorem turn_failures_500_witness :
    ("k1" : String) ≠ ""
    ∧ workerFetch ⟨"POST", .ok (), "/api/agent/chat", .ok ⟨some "s7", "hi"⟩⟩
        ⟨some "k1", none, none, none, none⟩ (fun _ => .httpError 503 "unavailable")
        77 "iso" "r7"
      = chatErrorResponse ("AI API returned " ++ toString 503 ++ ": " ++ "unavailable") 77
    ∧ ("GET" : String) ≠ "OPTIONS"
    ∧ workerFetch ⟨"GET", .error "Invalid URL", "/x", .error "no body"⟩
        ⟨none, none, none, none, none⟩ (fun _ => .ok .nullv) 0 "iso" "r8"
      = internalErrorResponse "Invalid URL" :=
  ⟨by decide,
   turn_failures_500.2.2.1 (some "s7") "hi" "k1" (by decide) none none none none
     503 "unavailable" 77 "iso" "r7",
   by decide,
   turn_failures_500.2.2.2.2.1 "GET" (by decide) "Invalid URL" "/x"
     (.error "no body") ⟨none, none, none, none, none⟩ (fun _ => .ok .nullv)
     0 "iso" "r8"⟩

/-- C8: every POST to `/api/session` — whatever body, environment and
upstream — returns 200 with body exactly the freshly generated
session_id (built from the current time and the random suffix) and the
created_at ISO timestamp. -/
theorem session_create_shape (cb : Except String ChatBody) (env : Env)
    (oracle : AIRequest → AIOutcome) (now : Nat) (nowIso rand : String) :
    workerFetch ⟨"POST", .ok (), "/api/session", cb⟩ env oracle now nowIso rand
      = { stat := 200
        , headers := jsonHeaders
        , body := some (.obj
            [("session_id", .str ("session_" ++ toString now ++ "_" ++ rand)),
             ("created_at", .str nowIso)]) } := rfl

/-- C9 counterexample: GET `/api/session/abc123` returns the fixed
catch-all welcome object (message, mode, endpoints) — not the stored
history of session abc123; the body has no messages field at all. -/
theorem get_session_cex :
    (workerFetch ⟨"GET", .ok (), "/api/session/abc123", .error "no body"⟩
        ⟨none, none, none, none, none⟩ (fun _ => .ok .nullv) 7 "iso" "r9").body
      = some defaultBody
    ∧ defaultBody.keys = ["message", "mode", "endpoints"]
    ∧ "messages" ∉ defaultBody.keys :=
  ⟨rfl, rfl, by decide⟩

/-- C9 (amended): the worker has no GET session route: a GET request to
any path other than `/api/health` and `/api/status` — in particular
`/api/session/:id` — receives the catch-all welcome response, never a
session's history. -/
theorem get_session_falls_through (p : String) (h1 : p ≠ "/api/health")
    (h2 : p ≠ "/api/status") (cb : Except String ChatBody) (env : Env)
    (oracle : AIRequest → AIOutcome) (now : Nat) (nowIso rand : String) :
    workerFetch ⟨"GET", .ok (), p, cb⟩ env oracle now nowIso rand
      = { stat := 200, headers := jsonHeaders, body := some defaultBody } := by
  unfold workerFetch workerFetchT
  dsimp only
  rw [if_neg (show ¬("GET" : String) = "OPTIONS" by decide),
      if_neg h1, if_neg h2,
      if_neg (show ¬(p = "/api/agent/chat" ∧ ("GET" : String) = "POST") from
        fun hc => absurd hc.2 (by decide)),
      if_neg (show ¬(p = "/api/session" ∧ ("GET" : String) = "POST") from
        fun hc => absurd hc.2 (by decide))]

/-- `get_session_falls_through` at the concrete path `/api/session/abc123`. -/
theorem get_session_falls_through_witness :
    ("/api/session/abc123" : String) ≠ "/api/health"
    ∧ ("/api/session/abc123" : String) ≠ "/api/status"
    ∧ workerFetch ⟨"GET", .ok (), "/api/session/abc123", .error "no body"⟩
        ⟨none, none, none, none, none⟩ (fun _ => .ok .nullv) 7 "iso" "r10"
      = { stat := 200, headers := jsonHeaders, body := some defaultBody } :=
  ⟨by decide, by decide,
   get_session_falls_through "/api/session/abc123" (by decide) (by decide)
     (.error "no body") ⟨none, none, none, none, none⟩ (fun _ => .ok .nullv)
     7 "iso" "r10"⟩

/-- Every response of the chat route carries the JSON+CORS header set. -/
theorem handleChat_headers (cb : Except String ChatBody) (env : Env)
    (oracle : AIRequest → AIOutcome) (now : Nat) :
    (handleChat cb env oracle now).1.headers = jsonHeaders := by
  rcases cb with m | b
  · rfl
  rcases h : jsOrOpt env.AI_API_KEY env.CLAUDE_API_KEY with _ | key
  · simp [handleChat, h, chatErrorResponse]
  · simp only [handleChat, h]
    split <;> rfl

/-- Every response of the handler carries either the JSON+CORS header
set or the preflight header set. -/
theorem workerFetch_headers (req : Request) (env : Env)
    (oracle : AIRequest → AIOutcome) (now : Nat) (nowIso rand : String) :
    (workerFetch req env oracle now nowIso rand).headers = jsonHeaders
    ∨ (workerFetch req env oracle now nowIso rand).headers
        = corsHeaders ++ [("Access-Control-Max-Age", "86400")] := by
  unfold workerFetch workerFetchT
  repeat' split
  all_goals try (right; rfl)
  all_goals left
  all_goals try rfl
  all_goals simp [handleChat_headers]

/-- C10: every HTTP response the handler can produce — route successes,
both catch blocks' 500s, the CORS preflight reply and the catch-all
fallback — contains the three CORS headers. -/
theorem cors_on_every_response (req : Request) (env : Env)
    (oracle : AIRequest → AIOutcome) (now : Nat) (nowIso rand : String) :
    ("Access-Control-Allow-Origin", "*")
      ∈ (workerFetch req env oracle now nowIso rand).headers
    ∧ ("Access-Control-Allow-Methods", "GET, POST, PUT, DELETE, OPTIONS")
      ∈ (workerFetch req env oracle now nowIso rand).headers
    ∧ ("Access-Control-Allow-Headers", "Content-Type, Authorization")
      ∈ (workerFetch req env oracle now nowIso rand).headers := by
  rcases workerFetch_headers req env oracle now nowIso rand with h | h <;>
    rw [h] <;> exact ⟨by decide, by decide, by decide⟩
